import Mathlib

/-!
Shallow embedding of the session-manager and content-client modules of a
React Native blogging front-end (contexts/AuthContext.js,
services/PostService.js, and the screen-level endpoint selection in
CreateEditPostScreen.js / PostsScreen.js / PostDetailScreen.js).

Backend HTTP exchanges are modelled by passing each operation the outcome of
its network call(s) as an `Except ApiError Json` argument; the mutable React
state (`user`, `token`, `error`), the axios default Authorization header and
the AsyncStorage key/value store are gathered into an explicit `AuthState`
record that every operation threads.
-/

namespace SokaneilClient

/-- JavaScript values as they occur in the API responses: a JSON-like value
tree.  An absent object field models JavaScript `undefined` via `Option`. -/
inductive Json where
  | null
  | bool (b : Bool)
  | num (n : Int)
  | str (s : String)
  | arr (elems : List Json)
  | obj (fields : List (String × Json))
deriving Repr

/-- JavaScript truthiness of a value: `null`, `false`, `0` and `""` are
falsy; every object and array is truthy. -/
def Json.truthy : Json → Bool
  | .null => false
  | .bool b => b
  | .num n => n != 0
  | .str s => s != ""
  | .arr _ => true
  | .obj _ => true

/-- Property access `v.k`: the first binding of field `k` when `v` is an
object, otherwise `none` (JavaScript `undefined`; the `null` case is never
reached in the embedded code because every access sits behind a truthiness
guard or a successful response). -/
def Json.getField? : Json → String → Option Json
  | .obj fields, k => fields.lookup k
  | _, _ => none

/-- JavaScript template-literal conversion of a value to a string, as in
`Bearer ${receivedToken}` (only ever applied to strings in practice). -/
def Json.templateStr : Json → String
  | .null => "null"
  | .bool true => "true"
  | .bool false => "false"
  | .num n => toString n
  | .str s => s
  | .arr elems =>
      String.intercalate "," (elems.attach.map fun e => Json.templateStr e.1)
  | .obj _ => "[object Object]"
decreasing_by
  simp only [Json.arr.sizeOf_spec]
  have := List.sizeOf_lt_of_mem e.2
  omega

/-- `JSON.stringify` (modelled without escaping of special characters inside
strings, which never arise in the embedded flows). -/
def Json.stringify : Json → String
  | .null => "null"
  | .bool true => "true"
  | .bool false => "false"
  | .num n => toString n
  | .str s => "\x22" ++ s ++ "\x22"
  | .arr elems =>
      "[" ++ String.intercalate "," (elems.attach.map fun e => Json.stringify e.1) ++ "]"
  | .obj fields =>
      "\x7b" ++
        String.intercalate ","
          (fields.attach.map fun f => "\x22" ++ f.1.1 ++ "\x22:" ++ Json.stringify f.1.2) ++
      "\x7d"
decreasing_by
  · simp only [Json.arr.sizeOf_spec]
    have := List.sizeOf_lt_of_mem e.2
    omega
  · simp only [Json.obj.sizeOf_spec]
    have h1 := List.sizeOf_lt_of_mem f.2
    obtain ⟨⟨k, v⟩, hf⟩ := f
    have h2 : sizeOf ((k, v) : String × Json) = 1 + sizeOf k + sizeOf v := rfl
    simp only at h1 ⊢
    omega

/-! `JSON.parse`, modelled as a fuel-indexed recursive-descent parser.
It accepts the JSON fragment the application itself produces (null, booleans,
integer numbers, strings with single-character backslash escapes, arrays,
objects) and rejects everything else; like `JSON.parse` it fails on
malformed input and on trailing garbage. -/

/-- Skip JSON whitespace. -/
def skipWs : List Char → List Char
  | c :: cs => if c = ' ' || c = '\t' || c = '\n' || c = '\r' then skipWs cs else c :: cs
  | [] => []

/-- Read the body of a string literal up to its closing quote; a backslash
escapes the single following character. -/
def takeStringChars : List Char → Option (List Char × List Char)
  | [] => none
  | '\"' :: rest => some ([], rest)
  | '\\' :: d :: rest => (takeStringChars rest).map fun p => (d :: p.1, p.2)
  | c :: rest => (takeStringChars rest).map fun p => (c :: p.1, p.2)

/-- Greedily read decimal digits. -/
def takeDigits : List Char → List Char × List Char
  | c :: cs => if c.isDigit then ((takeDigits cs).1.cons c, (takeDigits cs).2) else ([], c :: cs)
  | [] => ([], [])

/-- Value of a digit string. -/
def digitsToNat (ds : List Char) : Nat :=
  ds.foldl (fun acc c => 10 * acc + (c.toNat - 48)) 0

/-- Drop an expected literal suffix such as `ull` of `null`. -/
def dropLit : List Char → List Char → Option (List Char)
  | [], cs => some cs
  | p :: ps, c :: cs => if c = p then dropLit ps cs else none
  | _ :: _, [] => none

/-- What the parser is currently reading: a single value, the elements of a
non-empty array (up to `]`), or the members of a non-empty object (up to the
closing brace).  A single mode-indexed function keeps the recursion
structural in the fuel, so that the kernel can evaluate it. -/
inductive ParseMode where
  | val
  | elems
  | fields
deriving Repr, DecidableEq

/-- One parsing routine per `ParseMode`; `.elems` returns a `.arr` and
`.fields` a `.obj` of what was read. -/
def parseStep : Nat → ParseMode → List Char → Option (Json × List Char)
  | 0, _, _ => none
  | fuel + 1, .val, cs =>
    (match skipWs cs with
     | [] => none
     | '\"' :: rest => (takeStringChars rest).map fun p => (.str (String.mk p.1), p.2)
     | '[' :: rest =>
       (match skipWs rest with
        | ']' :: r2 => some (.arr [], r2)
        | r1 => parseStep fuel .elems r1)
     | '\x7b' :: rest =>
       (match skipWs rest with
        | '\x7d' :: r2 => some (.obj [], r2)
        | r1 => parseStep fuel .fields r1)
     | 't' :: rest => (dropLit ['r', 'u', 'e'] rest).map fun r => (.bool true, r)
     | 'f' :: rest => (dropLit ['a', 'l', 's', 'e'] rest).map fun r => (.bool false, r)
     | 'n' :: rest => (dropLit ['u', 'l', 'l'] rest).map fun r => (.null, r)
     | '-' :: rest =>
       (match takeDigits rest with
        | ([], _) => none
        | (ds, r) => some (.num (-(digitsToNat ds : Int)), r))
     | c :: rest =>
       if c.isDigit then
         (match takeDigits (c :: rest) with
          | ([], _) => none
          | (ds, r) => some (.num (digitsToNat ds : Int), r))
       else none)
  | fuel + 1, .elems, cs =>
    (match parseStep fuel .val cs with
     | none => none
     | some (v, rest) =>
       match skipWs rest with
       | ',' :: r2 =>
         (match parseStep fuel .elems r2 with
          | some (.arr vs, r) => some (.arr (v :: vs), r)
          | _ => none)
       | ']' :: r2 => some (.arr [v], r2)
       | _ => none)
  | fuel + 1, .fields, cs =>
    (match skipWs cs with
     | '\"' :: rest =>
       (match takeStringChars rest with
        | none => none
        | some (key, r1) =>
          match skipWs r1 with
          | ':' :: r2 =>
            (match parseStep fuel .val r2 with
             | none => none
             | some (v, r3) =>
               match skipWs r3 with
               | ',' :: r4 =>
                 (match parseStep fuel .fields r4 with
                  | some (.obj fs, r) => some (.obj ((String.mk key, v) :: fs), r)
                  | _ => none)
               | '\x7d' :: r4 => some (.obj [(String.mk key, v)], r4)
               | _ => none)
          | _ => none)
     | _ => none)

/-- `JSON.parse(s)`: parse the whole string, rejecting trailing garbage;
`none` models a thrown `SyntaxError`. -/
def Json.parse? (s : String) : Option Json :=
  match parseStep (2 * s.length + 2) .val s.data with
  | some (v, rest) => if skipWs rest = [] then some v else none
  | none => none

/-! ## Session-manager state (contexts/AuthContext.js) -/

/-- The two AsyncStorage entries the application uses: key `authToken`
(opaque token string) and key `user` (serialized user record).  `none`
means the key is absent. -/
structure Storage where
  authToken : Option String
  user : Option String
deriving Repr, DecidableEq

/-- The mutable client state threaded by every session operation: the React
state cells `user`, `token` and `error` of `AuthProvider`, the axios default
`Authorization` header, and the AsyncStorage store.  `user` and `token` are
`none` when the JavaScript value is `null` (their initial value) or
`undefined`. -/
structure AuthState where
  user : Option Json
  token : Option Json
  error : Option String
  authHeader : Option String
  storage : Storage
deriving Repr

/-- The failure carried by a rejected axios promise: an HTTP error response
(whose body may hold a `message` field) or a transport failure with no
response. -/
inductive ApiError where
  | http (status : Nat) (body : Json)
  | network
deriving Repr

/-- `error.response?.data?.message` — the backend message to surface, when
there is one that is a string. -/
def ApiError.message? : ApiError → Option String
  | .http _ body =>
    match body.getField? "message" with
    | some (.str m) => some m
    | _ => none
  | .network => none

/-- `isAuthenticated: !!token` — derived context value. -/
def isAuthenticated (st : AuthState) : Bool :=
  match st.token with
  | some t => t.truthy
  | none => false

/-- `isAdmin(): user?.isAdmin === true` — derived context value. -/
def isAdmin (st : AuthState) : Bool :=
  match st.user with
  | some u =>
    match u.getField? "isAdmin" with
    | some (.bool true) => true
    | _ => false
  | none => false

/-- `loadStoredAuthState` (AuthContext.js, the `useEffect` initializer):
reads both AsyncStorage entries; when both are truthy it sets the token,
then parses and sets the user, then sets the axios default header.  A
`JSON.parse` failure is caught by the surrounding try/catch *after*
`setToken` has already been issued, so in that case the token survives
while the user and the header do not. -/
def loadStoredAuthState (st : AuthState) : AuthState :=
  match st.storage.authToken, st.storage.user with
  | some storedToken, some storedUser =>
    if storedToken != "" && storedUser != "" then
      let st1 := { st with token := some (.str storedToken) }
      match Json.parse? storedUser with
      | some parsedUser =>
        { st1 with
          user := some parsedUser
          authHeader := some ("Bearer " ++ storedToken) }
      | none => st1
    else st
  | _, _ => st

/-- `register(name, email, password)`: POST `/user/new`; on success returns
`response.data` and on failure surfaces the backend message into the
`error` cell and rethrows.  The session itself is untouched either way.
The network exchange's outcome is the `resp` argument. -/
def register (st : AuthState) (resp : Except ApiError Json) :
    Except ApiError Json × AuthState :=
  let st0 := { st with error := none }
  match resp with
  | .ok body => (.ok body, st0)
  | .error e =>
    (.error e, { st0 with error := some ((e.message?).getD "Registration failed") })

/-- `login(email, password)`: POST `/user/login` (outcome `loginResp`),
destructure `token` from the body and throw if it is falsy; otherwise set
the token cell and the axios default header, GET `/user/monprofil` (outcome
`profileResp`), set the user cell to `profileResponse.data.data`, then
persist the token and the serialized user to AsyncStorage (the outcomes of
the two `setItem` calls are `tokenWriteOk` / `userWriteOk`; a failing write
leaves its entry unchanged).  Any throw lands in the catch block, which
records an error message and rethrows — it rolls nothing back. -/
def login (st : AuthState) (loginResp : Except ApiError Json)
    (profileResp : Except ApiError Json)
    (tokenWriteOk userWriteOk : Bool) :
    Except ApiError (Option Json) × AuthState :=
  let st0 := { st with error := none }
  let fail : ApiError → AuthState → Except ApiError (Option Json) × AuthState :=
    fun e s => (.error e, { s with error := some ((e.message?).getD "Login failed") })
  match loginResp with
  | .error e => fail e st0
  | .ok body =>
    match body.getField? "token" with
    | some tok =>
      if tok.truthy then
        let st1 := { st0 with
          token := some tok
          authHeader := some ("Bearer " ++ tok.templateStr) }
        match profileResp with
        | .error e => fail e st1
        | .ok profBody =>
          let userData := profBody.getField? "data"
          let st2 := { st1 with user := userData }
          if tokenWriteOk then
            let st3 := { st2 with
              storage := { st2.storage with authToken := some tok.templateStr } }
            match userData.map Json.stringify with
            | some serialized =>
              if userWriteOk then
                (.ok userData,
                 { st3 with storage := { st3.storage with user := some serialized } })
              else fail .network st3
            | none =>
              -- `JSON.stringify(undefined)` is not a string; AsyncStorage
              -- rejects it, so the user-entry write throws
              fail .network st3
          else fail .network st2
      else
        -- `throw new Error('No token received from server')`: a local error
        -- with no HTTP response, caught and rethrown by the same catch
        fail .network st0
    | none => fail .network st0

/-- `logout()`: clear the `user` and `token` cells, then remove the two
AsyncStorage entries and delete the axios default header, all inside a
try/catch that swallows any error.  A throwing `removeItem` (outcome flags
`removeTokenOk` / `removeUserOk`) leaves its entry in place and aborts the
rest of the block. -/
def logout (st : AuthState) (removeTokenOk removeUserOk : Bool) : AuthState :=
  let st1 := { st with user := none, token := none }
  if removeTokenOk then
    let st2 := { st1 with storage := { st1.storage with authToken := none } }
    if removeUserOk then
      let st3 := { st2 with storage := { st2.storage with user := none } }
      { st3 with authHeader := none }
    else st2
  else st1

/-! ## Content client (services/PostService.js) -/

/-- The envelope check both read operations share:
`if (response.data && response.data.data) return response.data.data;
return response.data;` -/
def unwrapData (data : Json) : Json :=
  if data.truthy then
    match data.getField? "data" with
    | some inner => if inner.truthy then inner else data
    | none => data
  else data

/-- `getAllPosts()`: GET `/post/all` (outcome `resp`); on success unwrap a
`data` envelope when present, otherwise return the body as is; on failure
rethrow the error. -/
def getAllPosts (resp : Except ApiError Json) : Except ApiError Json :=
  match resp with
  | .ok data => .ok (unwrapData data)
  | .error e => .error e

/-- `getPostById(postId)`: GET `/post/:id` (outcome `resp`); identical
envelope handling and error propagation. -/
def getPostById (resp : Except ApiError Json) : Except ApiError Json :=
  match resp with
  | .ok data => .ok (unwrapData data)
  | .error e => .error e

/-! ## Screen-level endpoint selection between the privileged and the
own-post variants -/

/-- Which PostService endpoint variant a screen invokes. -/
inductive EndpointVariant where
  | privileged
  | own
deriving Repr, DecidableEq

/-- `handleSubmit` in CreateEditPostScreen.js when editing:
`if (isAdmin && !isOwnPost) updatePost(...) else updateOwnPost(...)`.
`isOwnPost` arrives via route params as `post.userId === user.id`,
computed where the edit was launched. -/
def updateVariantChoice (isAdminFlag isOwnPost : Bool) : EndpointVariant :=
  if isAdminFlag && !isOwnPost then .privileged else .own

/-- `handleDeletePost` in PostsScreen.js and PostDetailScreen.js:
`const isOwnPost = post.userId === user.id;
if (isAdmin) deletePost(...) else if (isOwnPost) deleteOwnPost(...)
else` show an error and call neither. -/
def deleteVariantChoice (isAdminFlag isOwnPost : Bool) : Option EndpointVariant :=
  if isAdminFlag then some .privileged
  else if isOwnPost then some .own
  else none

/-- The locally computed ownership check the delete handlers make inline
and the edit navigation passes along: `post.userId === user.id`. -/
def isOwnPostCheck (postUserId userId : Nat) : Bool :=
  postUserId == userId

/-- The client state at process start: `useState(null)` cells, no default
header, and (for concrete instantiations) empty storage. -/
def emptyState : AuthState :=
  { user := none, token := none, error := none, authHeader := none,
    storage := { authToken := none, user := none } }

/-! ## Claim theorems -/

/-- Claim C1, counterexample to the claim as stated: when a prior session is
in memory (here user id 3 with its token), a login whose token exchange
succeeds but whose profile fetch fails does fail and does retain the
received token — but the session is NOT left "with a token but no user
record": the stale user record of the prior session is still there, because
the catch block rolls nothing back and `setUser` was never reached. -/
theorem login_profile_failure_stale_user_cex :
    (login ⟨some (.obj [("id", .num 3)]), some (.str "old"), none, some "Bearer old",
        ⟨some "old", some "serialized"⟩⟩
      (.ok (.obj [("token", .str "t2")])) (.error .network) true true).1 =
        .error .network ∧
    (login ⟨some (.obj [("id", .num 3)]), some (.str "old"), none, some "Bearer old",
        ⟨some "old", some "serialized"⟩⟩
      (.ok (.obj [("token", .str "t2")])) (.error .network) true true).2.token =
        some (.str "t2") ∧
    (login ⟨some (.obj [("id", .num 3)]), some (.str "old"), none, some "Bearer old",
        ⟨some "old", some "serialized"⟩⟩
      (.ok (.obj [("token", .str "t2")])) (.error .network) true true).2.user =
        some (.obj [("id", .num 3)]) :=
  ⟨rfl, rfl, rfl⟩

/-- Claim C1, amended: for every login call in which the token exchange
succeeds (a truthy `token` field in the response) but the profile fetch
fails, login fails with that error while the received token is retained in
the in-memory session and the default header is updated to it; no new user
record is stored — the user cell keeps whatever it held before the call, so
only from a previously empty session is the session left with a token but
no user record. -/
theorem login_profile_failure_retains_token (st : AuthState) (body tok : Json)
    (e : ApiError) (wt wu : Bool)
    (hb : body.getField? "token" = some tok) (htr : tok.truthy = true) :
    (login st (.ok body) (.error e) wt wu).1 = .error e ∧
    (login st (.ok body) (.error e) wt wu).2.token = some tok ∧
    (login st (.ok body) (.error e) wt wu).2.user = st.user ∧
    (login st (.ok body) (.error e) wt wu).2.authHeader =
      some ("Bearer " ++ tok.templateStr) := by
  simp [login, hb, htr]

/-- Witness for `login_profile_failure_retains_token` at a concrete call
from the empty startup state. -/
theorem login_profile_failure_retains_token_witness :
    (login emptyState (.ok (.obj [("token", .str "tk")]))
        (.error .network) true true).1 = .error .network ∧
    (login emptyState (.ok (.obj [("token", .str "tk")]))
        (.error .network) true true).2.token = some (.str "tk") ∧
    (login emptyState (.ok (.obj [("token", .str "tk")]))
        (.error .network) true true).2.user = emptyState.user ∧
    (login emptyState (.ok (.obj [("token", .str "tk")]))
        (.error .network) true true).2.authHeader =
      some ("Bearer " ++ Json.templateStr (.str "tk")) :=
  login_profile_failure_retains_token emptyState (.obj [("token", .str "tk")])
    (.str "tk") .network true true rfl rfl

/-- Claim C2: every login call that succeeds leaves the session holding both
the token returned by the backend and the user record from the profile
fetch, writes both storage entries (the token under `authToken`, the
serialized user under `user`), and sets the axios default Authorization
header to the bearer token. -/
theorem login_success_establishes_session (st : AuthState)
    (lr pr : Except ApiError Json) (wt wu : Bool) (v : Option Json)
    (h : (login st lr pr wt wu).1 = .ok v) :
    ∃ tok u, v = some u ∧
      (login st lr pr wt wu).2.token = some tok ∧
      (login st lr pr wt wu).2.user = some u ∧
      (login st lr pr wt wu).2.authHeader = some ("Bearer " ++ tok.templateStr) ∧
      (login st lr pr wt wu).2.storage.authToken = some tok.templateStr ∧
      (login st lr pr wt wu).2.storage.user = some (Json.stringify u) := by
  rcases lr with e | body
  · simp [login] at h
  rcases hb : body.getField? "token" with _ | tok
  · simp [login, hb] at h
  rcases htr : tok.truthy with _ | _
  · simp [login, hb, htr] at h
  rcases pr with e | profBody
  · simp [login, hb, htr] at h
  rcases hd : profBody.getField? "data" with _ | u
  · rcases wt with _ | _ <;> simp [login, hb, htr, hd] at h
  rcases wt with _ | _
  · simp [login, hb, htr, hd] at h
  rcases wu with _ | _
  · simp [login, hb, htr, hd] at h
  · simp [login, hb, htr, hd] at h ⊢
    exact ⟨tok, u, h.symm, rfl, rfl, rfl, rfl, rfl⟩

/-- Witness for `login_success_establishes_session` at a concrete
successful call. -/
theorem login_success_establishes_session_witness :
    ∃ tok u, some (Json.obj [("id", Json.num 7)]) = some u ∧
      (login emptyState (.ok (.obj [("token", .str "tk")]))
        (.ok (.obj [("data", .obj [("id", .num 7)])])) true true).2.token = some tok ∧
      (login emptyState (.ok (.obj [("token", .str "tk")]))
        (.ok (.obj [("data", .obj [("id", .num 7)])])) true true).2.user = some u ∧
      (login emptyState (.ok (.obj [("token", .str "tk")]))
        (.ok (.obj [("data", .obj [("id", .num 7)])]))
        true true).2.authHeader = some ("Bearer " ++ tok.templateStr) ∧
      (login emptyState (.ok (.obj [("token", .str "tk")]))
        (.ok (.obj [("data", .obj [("id", .num 7)])]))
        true true).2.storage.authToken = some tok.templateStr ∧
      (login emptyState (.ok (.obj [("token", .str "tk")]))
        (.ok (.obj [("data", .obj [("id", .num 7)])]))
        true true).2.storage.user = some (Json.stringify u) :=
  login_success_establishes_session emptyState (.ok (.obj [("token", .str "tk")]))
    (.ok (.obj [("data", .obj [("id", .num 7)])])) true true
    (some (.obj [("id", .num 7)])) rfl

/-- Claim C4: a login whose credential exchange is rejected by the backend
fails with that error and leaves the in-memory token, the in-memory user,
the persisted storage entries and the default Authorization header all
unchanged (only the non-session `error` message cell is touched). -/
theorem login_rejected_credentials_frame (st : AuthState) (e : ApiError)
    (pr : Except ApiError Json) (wt wu : Bool) :
    (login st (.error e) pr wt wu).1 = .error e ∧
    (login st (.error e) pr wt wu).2.token = st.token ∧
    (login st (.error e) pr wt wu).2.user = st.user ∧
    (login st (.error e) pr wt wu).2.storage = st.storage ∧
    (login st (.error e) pr wt wu).2.authHeader = st.authHeader := by
  simp [login]

/-- Witness for `login_rejected_credentials_frame` at a concrete rejected
call against a populated prior session. -/
theorem login_rejected_credentials_frame_witness :
    (login ⟨some (.obj [("id", .num 1)]), some (.str "tok"), none, some "Bearer tok",
        ⟨some "tok", some "ser"⟩⟩
      (.error (.http 401 (.obj [("message", .str "bad password")])))
      (.ok .null) true true).1 =
        .error (.http 401 (.obj [("message", .str "bad password")])) ∧
    (login ⟨some (.obj [("id", .num 1)]), some (.str "tok"), none, some "Bearer tok",
        ⟨some "tok", some "ser"⟩⟩
      (.error (.http 401 (.obj [("message", .str "bad password")])))
      (.ok .null) true true).2.token = some (.str "tok") ∧
    (login ⟨some (.obj [("id", .num 1)]), some (.str "tok"), none, some "Bearer tok",
        ⟨some "tok", some "ser"⟩⟩
      (.error (.http 401 (.obj [("message", .str "bad password")])))
      (.ok .null) true true).2.user = some (.obj [("id", .num 1)]) ∧
    (login ⟨some (.obj [("id", .num 1)]), some (.str "tok"), none, some "Bearer tok",
        ⟨some "tok", some "ser"⟩⟩
      (.error (.http 401 (.obj [("message", .str "bad password")])))
      (.ok .null) true true).2.storage = ⟨some "tok", some "ser"⟩ ∧
    (login ⟨some (.obj [("id", .num 1)]), some (.str "tok"), none, some "Bearer tok",
        ⟨some "tok", some "ser"⟩⟩
      (.error (.http 401 (.obj [("message", .str "bad password")])))
      (.ok .null) true true).2.authHeader = some "Bearer tok" :=
  login_rejected_credentials_frame
    ⟨some (.obj [("id", .num 1)]), some (.str "tok"), none, some "Bearer tok",
      ⟨some "tok", some "ser"⟩⟩
    (.http 401 (.obj [("message", .str "bad password")])) (.ok .null) true true

/-- Claim C10: when the token exchange succeeds but the profile fetch fails,
durable storage is not modified — both `AsyncStorage.setItem` calls sit
after the profile fetch in `login`, so the retained in-memory token is
never persisted by the failed call and cannot survive a restart through
storage. -/
theorem login_profile_failure_storage_frame (st : AuthState) (body : Json)
    (e : ApiError) (wt wu : Bool) :
    (login st (.ok body) (.error e) wt wu).2.storage = st.storage := by
  rcases hb : body.getField? "token" with _ | tok
  · simp [login, hb]
  rcases htr : tok.truthy with _ | _ <;> simp [login, hb, htr]

/-- Witness for `login_profile_failure_storage_frame` at a concrete call. -/
theorem login_profile_failure_storage_frame_witness :
    (login ⟨none, none, none, none, ⟨some "old", some "oldUser"⟩⟩
      (.ok (.obj [("token", .str "fresh")])) (.error .network)
      true true).2.storage = ⟨some "old", some "oldUser"⟩ :=
  login_profile_failure_storage_frame
    ⟨none, none, none, none, ⟨some "old", some "oldUser"⟩⟩
    (.obj [("token", .str "fresh")]) .network true true

/-- Claim C3, counterexample to the claim as stated: when the first
`AsyncStorage.removeItem` throws (flag `removeTokenOk = false`), the
swallowed exception aborts the rest of the block, so logout leaves BOTH
persisted entries and the default Authorization header in place — the claim
that both entries and the header are removed "including when a storage
operation throws" is false. -/
theorem logout_remove_failure_cex :
    (logout ⟨none, some (.str "x"), none, some "Bearer x", ⟨some "x", some "u"⟩⟩
        false true).storage.authToken = some "x" ∧
    (logout ⟨none, some (.str "x"), none, some "Bearer x", ⟨some "x", some "u"⟩⟩
        false true).storage.user = some "u" ∧
    (logout ⟨none, some (.str "x"), none, some "Bearer x", ⟨some "x", some "u"⟩⟩
        false true).authHeader = some "Bearer x" :=
  ⟨rfl, rfl, rfl⟩

/-- Claim C3, amended: for every prior state, logout clears the in-memory
session (so `isAuthenticated` is false) and never fails in a user-visible
way — any storage error is swallowed; when the storage removals succeed it
also removes both persisted entries and the default Authorization header,
but a throwing removal aborts the remainder: if the token removal throws,
both entries and the header survive, and if only the user-entry removal
throws, the token entry is removed while the user entry and the header
survive. -/
theorem logout_clears_memory_best_effort_storage (st : AuthState) (rt ru : Bool) :
    (logout st rt ru).user = none ∧ (logout st rt ru).token = none ∧
    isAuthenticated (logout st rt ru) = false ∧
    (rt = true → ru = true → logout st rt ru =
      { user := none, token := none, error := st.error, authHeader := none,
        storage := ⟨none, none⟩ }) ∧
    (rt = true → ru = false → logout st rt ru =
      { user := none, token := none, error := st.error, authHeader := st.authHeader,
        storage := ⟨none, st.storage.user⟩ }) ∧
    (rt = false → logout st rt ru =
      { user := none, token := none, error := st.error, authHeader := st.authHeader,
        storage := st.storage }) := by
  cases rt <;> cases ru <;> simp [logout, isAuthenticated]

/-- Witness for `logout_clears_memory_best_effort_storage` on a populated
session whose storage removals succeed. -/
theorem logout_clears_memory_best_effort_storage_witness :
    logout ⟨some (.obj [("id", .num 9)]), some (.str "tk"), none, some "Bearer tk",
        ⟨some "tk", some "ser"⟩⟩ true true =
      { user := none, token := none, error := none, authHeader := none,
        storage := ⟨none, none⟩ } :=
  (logout_clears_memory_best_effort_storage
    ⟨some (.obj [("id", .num 9)]), some (.str "tk"), none, some "Bearer tk",
      ⟨some "tk", some "ser"⟩⟩ true true).2.2.2.1 rfl rfl

/-- Claim C5, counterexample to the claim as stated: the delete handlers
branch on `isAdmin` first, so an admin deleting a post they own themselves
(ownership check `post.userId === user.id` true) still invokes the
privileged `deletePost` endpoint — the privileged variant is not invoked
"exactly when the actor is a privileged actor acting on another user's
post"; moreover the update handler sends a non-admin non-owner to
`updateOwnPost` rather than to neither endpoint. -/
theorem variant_selection_cex :
    isOwnPostCheck 5 5 = true ∧
    deleteVariantChoice true (isOwnPostCheck 5 5) = some .privileged ∧
    updateVariantChoice false false = .own :=
  ⟨rfl, rfl, rfl⟩

/-- Claim C5, amended: the UI layer's locally computed selection is — for
update: the privileged endpoint exactly when the actor is admin and not the
owner, and the own-post endpoint in every other case (including a caller
that is neither admin nor owner); for delete: the privileged endpoint
exactly when the actor is admin (even on the actor's own post), the
own-post endpoint exactly when a non-admin owner, and neither endpoint
exactly when neither admin nor owner. -/
theorem variant_selection_characterization (a o : Bool) :
    (updateVariantChoice a o = .privileged ↔ (a = true ∧ o = false)) ∧
    (updateVariantChoice a o = .own ↔ ¬(a = true ∧ o = false)) ∧
    (deleteVariantChoice a o = some .privileged ↔ a = true) ∧
    (deleteVariantChoice a o = some .own ↔ (a = false ∧ o = true)) ∧
    (deleteVariantChoice a o = none ↔ (a = false ∧ o = false)) := by
  cases a <;> cases o <;> simp [updateVariantChoice, deleteVariantChoice]

/-- Witness for `variant_selection_characterization` at the admin/non-owner
corner. -/
theorem variant_selection_characterization_witness :
    (updateVariantChoice true false = .privileged ↔ (true = true ∧ false = false)) ∧
    (updateVariantChoice true false = .own ↔ ¬(true = true ∧ false = false)) ∧
    (deleteVariantChoice true false = some .privileged ↔ true = true) ∧
    (deleteVariantChoice true false = some .own ↔ (true = false ∧ false = true)) ∧
    (deleteVariantChoice true false = none ↔ (true = false ∧ false = false)) :=
  variant_selection_characterization true false

/-- Claim C6: `getPostById` propagates the backend's error unchanged (in
particular the not-found rejection), and on success returns the `data`
field of the body when that field exists and is truthy (the `{data: Post}`
envelope) and the bare response body otherwise. -/
theorem getPost_error_and_envelope :
    (∀ e, getPostById (.error e) = .error e) ∧
    (∀ body inner, body.getField? "data" = some inner → inner.truthy = true →
      getPostById (.ok body) = .ok inner) ∧
    (∀ body, (∀ inner, body.getField? "data" = some inner → inner.truthy = false) →
      getPostById (.ok body) = .ok body) := by
  refine ⟨fun e => rfl, ?_, ?_⟩
  · intro body inner hf htr
    have hb : body.truthy = true := by
      cases body <;> simp_all [Json.getField?, Json.truthy]
    simp [getPostById, unwrapData, hf, htr, hb]
  · intro body hf
    rcases h : body.getField? "data" with _ | inner
    · simp [getPostById, unwrapData, h]
    · have hi := hf inner h
      simp [getPostById, unwrapData, h, hi]

/-- Witness for `getPost_error_and_envelope`: a not-found error passes
through, an enveloped post is unwrapped, a bare post body is returned as
is. -/
theorem getPost_error_and_envelope_witness :
    getPostById (.error (.http 404 .null)) = .error (.http 404 .null) ∧
    getPostById (.ok (.obj [("data", .obj [("id", .num 5)])])) =
      .ok (.obj [("id", .num 5)]) ∧
    getPostById (.ok (.obj [("id", .num 5), ("title", .str "T")])) =
      .ok (.obj [("id", .num 5), ("title", .str "T")]) :=
  ⟨getPost_error_and_envelope.1 (.http 404 .null),
   getPost_error_and_envelope.2.1 (.obj [("data", .obj [("id", .num 5)])])
     (.obj [("id", .num 5)]) rfl rfl,
   getPost_error_and_envelope.2.2 (.obj [("id", .num 5), ("title", .str "T")])
     (fun _ h => nomatch h)⟩

/-- Claim C7: `getAllPosts` returns the backend's sequence of posts exactly
as received — the `data` envelope is unwrapped when present, a bare array
is returned as is, and in both shapes the element list is returned without
re-sorting or filtering; an empty backend list yields an empty sequence,
not an error. -/
theorem listPosts_backend_order :
    (∀ fs ps, fs.lookup "data" = some (.arr ps) →
      getAllPosts (.ok (.obj fs)) = .ok (.arr ps)) ∧
    (∀ ps, getAllPosts (.ok (.arr ps)) = .ok (.arr ps)) ∧
    getAllPosts (.ok (.obj [("data", .arr [])])) = .ok (.arr []) ∧
    getAllPosts (.ok (.arr [])) = .ok (.arr []) := by
  refine ⟨?_, fun ps => rfl, rfl, rfl⟩
  intro fs ps h
  simp [getAllPosts, unwrapData, Json.getField?, h, Json.truthy]

/-- Witness for `listPosts_backend_order` on a two-post envelope and a bare
one-post array. -/
theorem listPosts_backend_order_witness :
    getAllPosts (.ok (.obj [("data", .arr [.num 2, .num 1])])) =
      .ok (.arr [.num 2, .num 1]) ∧
    getAllPosts (.ok (.arr [.num 3])) = .ok (.arr [.num 3]) :=
  ⟨listPosts_backend_order.1 [("data", .arr [.num 2, .num 1])] [.num 2, .num 1] rfl,
   listPosts_backend_order.2.1 [.num 3]⟩

/-- Claim C8: `register` — whether the backend call succeeds (its body is
returned) or fails (the error is rethrown) — leaves every session component
untouched: no token or user lands in memory, storage is not written, and no
default Authorization header is set. -/
theorem register_session_frame (st : AuthState) (resp : Except ApiError Json) :
    (register st resp).1 = resp ∧
    (register st resp).2.token = st.token ∧
    (register st resp).2.user = st.user ∧
    (register st resp).2.storage = st.storage ∧
    (register st resp).2.authHeader = st.authHeader := by
  cases resp <;> simp [register]

/-- Witness for `register_session_frame` at a concrete successful
registration from the startup state. -/
theorem register_session_frame_witness :
    (register emptyState (.ok (.obj [("id", .num 4)]))).1 =
      .ok (.obj [("id", .num 4)]) ∧
    (register emptyState (.ok (.obj [("id", .num 4)]))).2.token = emptyState.token ∧
    (register emptyState (.ok (.obj [("id", .num 4)]))).2.user = emptyState.user ∧
    (register emptyState (.ok (.obj [("id", .num 4)]))).2.storage =
      emptyState.storage ∧
    (register emptyState (.ok (.obj [("id", .num 4)]))).2.authHeader =
      emptyState.authHeader :=
  register_session_frame emptyState (.ok (.obj [("id", .num 4)]))

/-- Claim C9, counterexample to the claim as stated: with both persisted
entries present but the stored user record not valid JSON (here the single
character left brace), the restore sets the token before `JSON.parse`
throws, so the session ends with a token and no user — the pairing
invariant "after restore the token is present iff the user record is
present" fails even though restoration only proceeds when both entries are
present. -/
theorem restore_unparseable_user_cex :
    (loadStoredAuthState ⟨none, none, none, none, ⟨some "t", some "\x7b"⟩⟩).token =
      some (.str "t") ∧
    (loadStoredAuthState ⟨none, none, none, none, ⟨some "t", some "\x7b"⟩⟩).user =
      none ∧
    (loadStoredAuthState ⟨none, none, none, none, ⟨some "t", some "\x7b"⟩⟩).authHeader =
      none :=
  ⟨rfl, rfl, rfl⟩

/-- Claim C9, amended: at startup, when either persisted entry is absent (or
either is the empty string, which is falsy) nothing is restored and the
session is left as it was; when both entries are present, non-empty and the
stored user parses as JSON, token and user are both loaded and the default
header set — but when both are present and the user entry is NOT valid
JSON, the token alone is restored, without the user or the header, so the
pairing invariant only holds on storage states whose user entry parses. -/
theorem restore_pairing_characterization (st : AuthState) :
    (st.storage.authToken = none → loadStoredAuthState st = st) ∧
    (st.storage.user = none → loadStoredAuthState st = st) ∧
    (∀ t s, st.storage.authToken = some t → st.storage.user = some s →
      (t = "" ∨ s = "") → loadStoredAuthState st = st) ∧
    (∀ t s u, st.storage.authToken = some t → st.storage.user = some s →
      t ≠ "" → s ≠ "" → Json.parse? s = some u →
      loadStoredAuthState st =
        { st with user := some u, token := some (.str t),
                  authHeader := some ("Bearer " ++ t) }) ∧
    (∀ t s, st.storage.authToken = some t → st.storage.user = some s →
      t ≠ "" → s ≠ "" → Json.parse? s = none →
      loadStoredAuthState st = { st with token := some (.str t) }) := by
  obtain ⟨u0, t0, e0, h0, sa, su⟩ := st
  refine ⟨?_, ?_, ?_, ?_, ?_⟩
  · intro h
    simp only [] at h
    subst h
    rfl
  · intro h
    simp only [] at h
    subst h
    rcases sa with _ | t <;> rfl
  · rintro t s h1 h2 h3
    simp only [] at h1 h2
    subst h1; subst h2
    rcases h3 with rfl | rfl
    · rfl
    · simp [loadStoredAuthState]
  · rintro t s u h1 h2 ht hs hp
    simp only [] at h1 h2
    subst h1; subst h2
    have ht' : (t != "") = true := bne_iff_ne.mpr ht
    have hs' : (s != "") = true := bne_iff_ne.mpr hs
    simp [loadStoredAuthState, ht', hs', hp]
  · rintro t s h1 h2 ht hs hp
    simp only [] at h1 h2
    subst h1; subst h2
    have ht' : (t != "") = true := bne_iff_ne.mpr ht
    have hs' : (s != "") = true := bne_iff_ne.mpr hs
    simp [loadStoredAuthState, ht', hs', hp]

/-- Witness for `restore_pairing_characterization`: a storage state holding
a token and a well-formed serialized user restores both and sets the
header. -/
theorem restore_pairing_characterization_witness :
    loadStoredAuthState ⟨none, none, none, none,
        ⟨some "t", some "\x7b\x22id\x22:1\x7d"⟩⟩ =
      { user := some (.obj [("id", .num 1)]), token := some (.str "t"),
        error := none, authHeader := some ("Bearer " ++ "t"),
        storage := ⟨some "t", some "\x7b\x22id\x22:1\x7d"⟩ } :=
  (restore_pairing_characterization
      ⟨none, none, none, none, ⟨some "t", some "\x7b\x22id\x22:1\x7d"⟩⟩).2.2.2.1
    "t" "\x7b\x22id\x22:1\x7d" (.obj [("id", .num 1)]) rfl rfl
    (by decide) (by decide) rfl

end SokaneilClient
